import Mathlib

/-
Verification of the lci LOLCODE parser core (rubicks/lci).

The development shallowly embeds the parser's data model and the
recursive-descent parser itself.  The data model (token kinds, keyword table,
AST node structures, discriminant enumerations) is translated from the
repository sources keywords.h and parser.h.  The parser bodies are not part of
the repository snapshot, only their declarations and the EBNF grammar in
parser.h's documentation; the parse functions below are therefore modelled
from that in-source EBNF, falling back on the specification's prose only
where the EBNF is silent (dispatch order, the loop-name equality check, the
tag recorded for each type keyword).  Every such fall-back is marked
"Modelled from the spec" in the doc comment of the definition concerned.

Machine integers are modelled as unbounded Int/Nat together with explicit
range predicates (signed64, bits32); 32-bit floats appear only as opaque bit
patterns, since no claim concerns float arithmetic.  Fallible parsing returns
Option; a parse failure (any diagnostic path in the C code) is Option.none.
-/

/-- Token kinds, translated from the index comments of the keyword table in
keywords.h (one enumerator per table entry, in table order). -/
inductive TokenType : Type where
| TT_INTEGER
| TT_FLOAT
| TT_STRING
| TT_IDENTIFIER
| TT_BOOLEAN
| TT_IT
| TT_ITZLIEKA
| TT_NOOB
| TT_NUMBR
| TT_NUMBAR
| TT_TROOF
| TT_YARN
| TT_BUKKIT
| TT_EOF
| TT_NEWLINE
| TT_HAI
| TT_KTHXBYE
| TT_HASA
| TT_ITZA
| TT_ITZ
| TT_RNOOB
| TT_R
| TT_ANYR
| TT_AN
| TT_SUMOF
| TT_DIFFOF
| TT_PRODUKTOF
| TT_QUOSHUNTOF
| TT_MODOF
| TT_BIGGROF
| TT_SMALLROF
| TT_BOTHOF
| TT_EITHEROF
| TT_WONOF
| TT_NOT
| TT_MKAY
| TT_ALLOF
| TT_ANYOF
| TT_BOTHSAEM
| TT_DIFFRINT
| TT_MAEK
| TT_A
| TT_ISNOWA
| TT_VISIBLE
| TT_SMOOSH
| TT_BANG
| TT_GIMMEH
| TT_ORLY
| TT_YARLY
| TT_MEBBE
| TT_NOWAI
| TT_OIC
| TT_WTF
| TT_OMG
| TT_OMGWTF
| TT_GTFO
| TT_IMINYR
| TT_UPPIN
| TT_NERFIN
| TT_YR
| TT_TIL
| TT_WILE
| TT_IMOUTTAYR
| TT_HOWIZ
| TT_IZ
| TT_IFUSAYSO
| TT_FOUNDYR
| TT_SRS
| TT_APOSTROPHEZ
| TT_OHAIIM
| TT_IMLIEK
| TT_KTHX
| TT_ENDOFTOKENS
deriving DecidableEq

/-- The keyword table, translated entry for entry (and in the same order) from
the static array `keywords` in keywords.h.  Index i is the spelling of the
token kind with that index; literal token kinds and structural kinds have the
empty spelling.  The apostrophe of the slot-access keyword is written with the
escape \x27. -/
def keywords : List String :=
  [ ""
  , ""
  , ""
  , ""
  , ""
  , "IT"
  , "ITZ LIEK A"
  , "NOOB"
  , "NUMBR"
  , "NUMBAR"
  , "TROOF"
  , "YARN"
  , "BUKKIT"
  , ""
  , ""
  , "HAI"
  , "KTHXBYE"
  , "HAS A"
  , "ITZ A"
  , "ITZ"
  , "R NOOB"
  , "R"
  , "AN YR"
  , "AN"
  , "SUM OF"
  , "DIFF OF"
  , "PRODUKT OF"
  , "QUOSHUNT OF"
  , "MOD OF"
  , "BIGGR OF"
  , "SMALLR OF"
  , "BOTH OF"
  , "EITHER OF"
  , "WON OF"
  , "NOT"
  , "MKAY"
  , "ALL OF"
  , "ANY OF"
  , "BOTH SAEM"
  , "DIFFRINT"
  , "MAEK"
  , "A"
  , "IS NOW A"
  , "VISIBLE"
  , "SMOOSH"
  , "!"
  , "GIMMEH"
  , "O RLY?"
  , "YA RLY"
  , "MEBBE"
  , "NO WAI"
  , "OIC"
  , "WTF?"
  , "OMG"
  , "OMGWTF"
  , "GTFO"
  , "IM IN YR"
  , "UPPIN"
  , "NERFIN"
  , "YR"
  , "TIL"
  , "WILE"
  , "IM OUTTA YR"
  , "HOW IZ"
  , "IZ"
  , "IF U SAY SO"
  , "FOUND YR"
  , "SRS"
  , "\x27Z"
  , "O HAI IM"
  , "IM LIEK"
  , "KTHX"
  , "" ]

/-- One keyword spelling extended by a blank is a prefix of another: this is
the "longest match at a word boundary" relation that first-match tokenization
over the table actually depends on (compound keywords are whole words, so a
shorter keyword can only shadow a longer one whose next character is the
separating blank). -/
def wbPrefixOf (a b : String) : Bool := List.isPrefixOf (a.data ++ [' ']) b.data

/-- Statement discriminant, translated from StmtType in parser.h. -/
inductive StmtType : Type where
| ST_CAST
| ST_PRINT
| ST_INPUT
| ST_ASSIGNMENT
| ST_DECLARATION
| ST_IFTHENELSE
| ST_SWITCH
| ST_BREAK
| ST_RETURN
| ST_LOOP
| ST_DEALLOCATION
| ST_FUNCDEF
| ST_EXPR
| ST_ALTARRAYDEF
deriving DecidableEq

/-- Expression discriminant, translated from ExprType in parser.h. -/
inductive ExprType : Type where
| ET_CAST
| ET_CONSTANT
| ET_IDENTIFIER
| ET_FUNCCALL
| ET_OP
| ET_IMPVAR
deriving DecidableEq

/-- Identifier discriminant, translated from IdentifierType in parser.h. -/
inductive IdentifierType : Type where
| IT_DIRECT
| IT_INDIRECT
deriving DecidableEq

/-- Constant discriminant, translated from ConstantType in parser.h: six
variants, of which CT_NIL and CT_ARRAY have no literal form. -/
inductive ConstantType : Type where
| CT_INTEGER
| CT_FLOAT
| CT_BOOLEAN
| CT_STRING
| CT_NIL
| CT_ARRAY
deriving DecidableEq

/-- Operation discriminant, translated variant for variant from OpType in
parser.h.  Note that the enumeration has exactly these fourteen variants:
there is no variant for ALL OF or ANY OF (their n-ary expressions reuse
OP_AND / OP_OR) and none for cast (a cast is its own expression variant). -/
inductive OpType : Type where
| OP_ADD
| OP_SUB
| OP_MULT
| OP_DIV
| OP_MOD
| OP_MAX
| OP_MIN
| OP_AND
| OP_OR
| OP_XOR
| OP_NOT
| OP_EQ
| OP_NEQ
| OP_CAT
deriving DecidableEq, Fintype

/-- The fourteen operation variants of OpType, in declaration order. -/
def allOpTypes : List OpType :=
  [ OpType.OP_ADD, OpType.OP_SUB, OpType.OP_MULT, OpType.OP_DIV, OpType.OP_MOD
  , OpType.OP_MAX, OpType.OP_MIN, OpType.OP_AND, OpType.OP_OR, OpType.OP_XOR
  , OpType.OP_NOT, OpType.OP_EQ, OpType.OP_NEQ, OpType.OP_CAT ]

/-- Payload carried by the ConstantData union of parser.h.  The C union holds
a `long long int`, a `float` or a `char *`; here the integer field is an
unbounded Int paired with the range predicate signed64 below, and the float
field is an opaque 32-bit pattern (a Nat paired with bits32). -/
inductive ConstantData : Type where
| i (v : Int)
| f (bits : Nat)
| s (v : String)
deriving DecidableEq

/-- The C declared type of the integer payload is `long long int`: a signed
64-bit quantity. -/
def signed64 (v : Int) : Prop := -(2 ^ 63) ≤ v ∧ v < 2 ^ 63

/-- The C declared type of the float payload is `float`: a 32-bit quantity,
modelled as its bit pattern. -/
def bits32 (b : Nat) : Prop := b < 2 ^ 32

/-- ConstantNode from parser.h: a discriminant plus the union payload. -/
structure ConstantNode : Type where
  type : ConstantType
  data : ConstantData
deriving DecidableEq

/-- TypeNode from parser.h: a type annotation stores a ConstantType tag. -/
structure TypeNode : Type where
  type : ConstantType
deriving DecidableEq

/-- Token payload: literal tokens carry a string, integer or float datum;
keyword and structural tokens carry nothing (tokenizer output contract,
spec section 6). -/
inductive TokenPayload : Type where
| pnone
| pstr (s : String)
| pint (v : Int)
| pfloat (bits : Nat)
deriving DecidableEq

/-- A token as delivered by the tokenizer: kind, optional payload, source file
name and source line (spec section 6, input contract). -/
structure Token : Type where
  type : TokenType
  payload : TokenPayload
  fname : String
  line : Nat
deriving DecidableEq

/-- peekToken from parser.h's utilities: true iff the current token has the
given kind; never advances. -/
def peekToken (toks : List Token) (t : TokenType) : Bool :=
  match toks with
  | [] => false
  | tk :: _ => tk.type = t

/-- acceptToken from parser.h's utilities: if the current token has the given
kind, advance past it, otherwise leave the cursor alone and report failure. -/
def acceptToken (toks : List Token) (t : TokenType) : Option (List Token) :=
  match toks with
  | [] => Option.none
  | tk :: rest => if tk.type = t then Option.some rest else Option.none

/-- nextToken (the require primitive): same cursor behaviour as acceptToken;
the diagnostic it prints on mismatch is outside the embedding, so failure is
simply Option.none. -/
def nextToken (toks : List Token) (t : TokenType) : Option (List Token) :=
  acceptToken toks t

/-- Consume the given token kind when present, otherwise stay put (the
pattern used for the grammar's optional keywords such as AN). -/
def acceptOpt (toks : List Token) (t : TokenType) : List Token :=
  match acceptToken toks t with
  | Option.none => toks
  | Option.some r => r

mutual

/-- The id payload of an IdentifierNode: a direct name string or, for the SRS
form, a full expression (void *id in parser.h). -/
inductive IdentifierId : Type where
| direct (name : String)
| indirect (expr : ExprNode)

/-- IdentifierNode from parser.h: payload, source file name, source line and
an optional slot identifier reached through the apostrophe-Z keyword. -/
inductive IdentifierNode : Type where
| mk (id : IdentifierId) (fname : String) (line : Nat) (slot : Option IdentifierNode)

/-- ExprNode from parser.h: the tagged union of expression variants. -/
inductive ExprNode : Type where
| cast (c : CastExprNode)
| constant (c : ConstantNode)
| identifier (i : IdentifierNode)
| funcCall (f : FuncCallExprNode)
| op (o : OpExprNode)
| impVar

/-- CastExprNode from parser.h. -/
inductive CastExprNode : Type where
| mk (target : ExprNode) (newtype : TypeNode)

/-- FuncCallExprNode from parser.h. -/
inductive FuncCallExprNode : Type where
| mk (scope : IdentifierNode) (name : IdentifierNode) (args : List ExprNode)

/-- OpExprNode from parser.h: an operation type applied to a list of
arguments. -/
inductive OpExprNode : Type where
| mk (type : OpType) (args : List ExprNode)

/-- StmtNode from parser.h: the tagged union of the fourteen statement
variants. -/
inductive StmtNode : Type where
| castStmt (c : CastStmtNode)
| printStmt (p : PrintStmtNode)
| inputStmt (i : InputStmtNode)
| assignmentStmt (a : AssignmentStmtNode)
| declarationStmt (d : DeclarationStmtNode)
| ifThenElseStmt (i : IfThenElseStmtNode)
| switchStmt (s : SwitchStmtNode)
| breakStmt
| returnStmt (r : ReturnStmtNode)
| loopStmt (l : LoopStmtNode)
| deallocationStmt (d : DeallocationStmtNode)
| funcDefStmt (f : FuncDefStmtNode)
| exprStmt (e : ExprNode)
| altArrayDefStmt (a : AltArrayDefStmtNode)

/-- BlockNode from parser.h: an ordered list of statements. -/
inductive BlockNode : Type where
| mk (stmts : List StmtNode)

/-- CastStmtNode from parser.h. -/
inductive CastStmtNode : Type where
| mk (target : IdentifierNode) (newtype : TypeNode)

/-- PrintStmtNode from parser.h: the expressions to print and the
no-newline flag set by the trailing bang. -/
inductive PrintStmtNode : Type where
| mk (args : List ExprNode) (nonl : Bool)

/-- InputStmtNode from parser.h. -/
inductive InputStmtNode : Type where
| mk (target : IdentifierNode)

/-- AssignmentStmtNode from parser.h. -/
inductive AssignmentStmtNode : Type where
| mk (target : IdentifierNode) (expr : ExprNode)

/-- DeclarationStmtNode from parser.h: scope, target, and the three optional
initializer slots (expression, type, inherited parent). -/
inductive DeclarationStmtNode : Type where
| mk (scope : IdentifierNode) (target : IdentifierNode)
     (expr : Option ExprNode) (type : Option TypeNode) (parent : Option IdentifierNode)

/-- IfThenElseStmtNode from parser.h: the mandatory yes block, optional no
block, and the parallel guard and block lists of the MEBBE branches. -/
inductive IfThenElseStmtNode : Type where
| mk (yes : BlockNode) (no : Option BlockNode)
     (guards : List ExprNode) (blocks : List BlockNode)

/-- SwitchStmtNode from parser.h: parallel guard and block lists plus the
optional default block. -/
inductive SwitchStmtNode : Type where
| mk (guards : List ExprNode) (blocks : List BlockNode) (defBlock : Option BlockNode)

/-- ReturnStmtNode from parser.h. -/
inductive ReturnStmtNode : Type where
| mk (value : ExprNode)

/-- LoopStmtNode from parser.h: loop name, optional update variable, optional
guard expression, optional update expression, body.  The closing name that
IM OUTTA YR carries is checked against the opening name and then discarded,
so the node stores a single name. -/
inductive LoopStmtNode : Type where
| mk (name : IdentifierNode) (var : Option IdentifierNode)
     (guard : Option ExprNode) (update : Option ExprNode) (body : BlockNode)

/-- DeallocationStmtNode from parser.h. -/
inductive DeallocationStmtNode : Type where
| mk (target : IdentifierNode)

/-- FuncDefStmtNode from parser.h. -/
inductive FuncDefStmtNode : Type where
| mk (scope : IdentifierNode) (name : IdentifierNode)
     (args : List IdentifierNode) (body : BlockNode)

/-- AltArrayDefStmtNode from parser.h. -/
inductive AltArrayDefStmtNode : Type where
| mk (name : IdentifierNode) (body : BlockNode) (parent : Option IdentifierNode)

end

/-- MainNode from parser.h: the program root owns the top-level block. -/
structure MainNode : Type where
  block : BlockNode

/-- The discriminant of an expression node (the ExprType field an ExprNode
carries in the C representation). -/
def ExprNode.etype : ExprNode → ExprType
| ExprNode.cast _ => ExprType.ET_CAST
| ExprNode.constant _ => ExprType.ET_CONSTANT
| ExprNode.identifier _ => ExprType.ET_IDENTIFIER
| ExprNode.funcCall _ => ExprType.ET_FUNCCALL
| ExprNode.op _ => ExprType.ET_OP
| ExprNode.impVar => ExprType.ET_IMPVAR

/-- The discriminant of an identifier node. -/
def IdentifierNode.idtype : IdentifierNode → IdentifierType
| IdentifierNode.mk (IdentifierId.direct _) _ _ _ => IdentifierType.IT_DIRECT
| IdentifierNode.mk (IdentifierId.indirect _) _ _ _ => IdentifierType.IT_INDIRECT

/-- The name of a direct identifier; Option.none for the indirect (SRS)
form, whose name only exists at run time. -/
def directNameOf : IdentifierNode → Option String
| IdentifierNode.mk (IdentifierId.direct s) _ _ _ => Option.some s
| IdentifierNode.mk (IdentifierId.indirect _) _ _ _ => Option.none

/-- Guard list of an if/then/else node. -/
def IfThenElseStmtNode.guards : IfThenElseStmtNode → List ExprNode
| IfThenElseStmtNode.mk _ _ g _ => g

/-- Block list of an if/then/else node. -/
def IfThenElseStmtNode.blocks : IfThenElseStmtNode → List BlockNode
| IfThenElseStmtNode.mk _ _ _ b => b

/-- Guard list of a switch node. -/
def SwitchStmtNode.guards : SwitchStmtNode → List ExprNode
| SwitchStmtNode.mk g _ _ => g

/-- Block list of a switch node. -/
def SwitchStmtNode.blocks : SwitchStmtNode → List BlockNode
| SwitchStmtNode.mk _ b _ => b

/-- Number of populated slots in an Option. -/
def optCount {α : Type} : Option α → Nat
| Option.none => 0
| Option.some _ => 1

/-- Number of populated initializer slots of a declaration node (init
expression, init type, inherited parent). -/
def initCount (d : DeclarationStmtNode) : Nat :=
  match d with
  | DeclarationStmtNode.mk _ _ e t p => optCount e + optCount t + optCount p

/-- createBooleanConstantNode from parser.h (C signature: takes an int).
Modelled from the spec: the constructor body is not in the snapshot; it tags
the node CT_BOOLEAN and stores the datum in the integer field of the union. -/
def createBooleanConstantNode (v : Int) : ConstantNode :=
  ConstantNode.mk ConstantType.CT_BOOLEAN (ConstantData.i v)

/-- createIntegerConstantNode from parser.h (C signature: takes a
long long int).  Modelled from the spec: tags the node CT_INTEGER and stores
the datum unchanged in the integer field. -/
def createIntegerConstantNode (v : Int) : ConstantNode :=
  ConstantNode.mk ConstantType.CT_INTEGER (ConstantData.i v)

/-- createFloatConstantNode from parser.h (C signature: takes a float, here
its 32-bit pattern).  Modelled from the spec: tags the node CT_FLOAT and
stores the datum in the float field. -/
def createFloatConstantNode (bits : Nat) : ConstantNode :=
  ConstantNode.mk ConstantType.CT_FLOAT (ConstantData.f bits)

/-- createStringConstantNode from parser.h.  Modelled from the spec: tags the
node CT_STRING and stores the (already unescaped) string. -/
def createStringConstantNode (s : String) : ConstantNode :=
  ConstantNode.mk ConstantType.CT_STRING (ConstantData.s s)

/-- The integer payload of a constant node, when its union holds one. -/
def constantIntPayload (c : ConstantNode) : Option Int :=
  match c.data with
  | ConstantData.i v => Option.some v
  | _ => Option.none

/-- The float payload of a constant node, when its union holds one. -/
def constantFloatPayload (c : ConstantNode) : Option Nat :=
  match c.data with
  | ConstantData.f b => Option.some b
  | _ => Option.none

/-- parseTypeNode, following the EBNF production in parser.h
  TypeNode ::= TT_NOOB | TT_TROOF | TT_NUMBR | TT_NUMBAR | TT_YARN.
Modelled from the spec: the body is not in the snapshot; the ConstantType tag
recorded for each of the five keywords is the type the keyword names
(NOOB the nil type, TROOF boolean, NUMBR integer, NUMBAR float, YARN
string), per section 4.2 of the specification. -/
def parseTypeNode (toks : List Token) : Option (TypeNode × List Token) :=
  match toks with
  | [] => Option.none
  | tk :: rest =>
    if tk.type = TokenType.TT_NOOB then Option.some (TypeNode.mk ConstantType.CT_NIL, rest)
    else if tk.type = TokenType.TT_TROOF then Option.some (TypeNode.mk ConstantType.CT_BOOLEAN, rest)
    else if tk.type = TokenType.TT_NUMBR then Option.some (TypeNode.mk ConstantType.CT_INTEGER, rest)
    else if tk.type = TokenType.TT_NUMBAR then Option.some (TypeNode.mk ConstantType.CT_FLOAT, rest)
    else if tk.type = TokenType.TT_YARN then Option.some (TypeNode.mk ConstantType.CT_STRING, rest)
    else Option.none

/-- parseConstantNode, following the EBNF production
  ConstantNode ::= Boolean | Integer | Float | String
with the literal datum taken from the token payload. -/
def parseConstantNode (toks : List Token) : Option (ConstantNode × List Token) :=
  match toks with
  | [] => Option.none
  | tk :: rest =>
    match tk.type, tk.payload with
    | TokenType.TT_BOOLEAN, TokenPayload.pint v => Option.some (createBooleanConstantNode v, rest)
    | TokenType.TT_INTEGER, TokenPayload.pint v => Option.some (createIntegerConstantNode v, rest)
    | TokenType.TT_FLOAT, TokenPayload.pfloat b => Option.some (createFloatConstantNode b, rest)
    | TokenType.TT_STRING, TokenPayload.pstr s => Option.some (createStringConstantNode s, rest)
    | _, _ => Option.none

/-- Sequence a sub-parse producing a node and a new cursor. -/
def pbind {α β : Type} (x : Option (α × List Token)) (f : α → List Token → Option β) : Option β :=
  match x with
  | Option.none => Option.none
  | Option.some p => f p.1 p.2

/-- Sequence a token-cursor step (acceptToken / nextToken). -/
def tbind {β : Type} (x : Option (List Token)) (f : List Token → Option β) : Option β :=
  match x with
  | Option.none => Option.none
  | Option.some r => f r

/-- Shorthand for the type of the identifier sub-parser. -/
abbrev PIdent := List Token → Option (IdentifierNode × List Token)

/-- Shorthand for the type of the expression sub-parser. -/
abbrev PExpr := List Token → Option (ExprNode × List Token)

/-- Shorthand for the type of the statement sub-parser. -/
abbrev PStmt := List Token → Option (StmtNode × List Token)

/-- Shorthand for the type of the block sub-parser. -/
abbrev PBlock := List Token → Option (BlockNode × List Token)

/-- Which OpType a binary operator keyword denotes (EBNF BinaryOpType).
Modelled from the spec: the keyword-to-variant mapping follows the operator
semantics named by each keyword (SUM OF is addition, BOTH SAEM equality,
and so on). -/
def binaryTokenOpType (t : TokenType) : Option OpType :=
  match t with
  | TokenType.TT_SUMOF => Option.some OpType.OP_ADD
  | TokenType.TT_DIFFOF => Option.some OpType.OP_SUB
  | TokenType.TT_PRODUKTOF => Option.some OpType.OP_MULT
  | TokenType.TT_QUOSHUNTOF => Option.some OpType.OP_DIV
  | TokenType.TT_MODOF => Option.some OpType.OP_MOD
  | TokenType.TT_BIGGROF => Option.some OpType.OP_MAX
  | TokenType.TT_SMALLROF => Option.some OpType.OP_MIN
  | TokenType.TT_BOTHOF => Option.some OpType.OP_AND
  | TokenType.TT_EITHEROF => Option.some OpType.OP_OR
  | TokenType.TT_WONOF => Option.some OpType.OP_XOR
  | TokenType.TT_BOTHSAEM => Option.some OpType.OP_EQ
  | TokenType.TT_DIFFRINT => Option.some OpType.OP_NEQ
  | _ => Option.none

/-- Which OpType an n-ary operator keyword denotes (EBNF NaryOpType).
Modelled from the spec: OpType has no dedicated all-of / any-of variants, so
ALL OF and ANY OF necessarily reuse OP_AND and OP_OR; SMOOSH is OP_CAT. -/
def naryTokenOpType (t : TokenType) : Option OpType :=
  match t with
  | TokenType.TT_ALLOF => Option.some OpType.OP_AND
  | TokenType.TT_ANYOF => Option.some OpType.OP_OR
  | TokenType.TT_SMOOSH => Option.some OpType.OP_CAT
  | _ => Option.none

/-- The tail of an n-ary operand list, following the EBNF productions
  NaryOpArgs ::= ExprNode NaryOpArg +
  NaryOpArg  ::= TT_AN ? ExprNode
This parses the `NaryOpArg +` part: at least one further operand, each
optionally preceded by AN, stopping (deterministically) when the terminator
MKAY is the next token. -/
def naryArgsPlus (pE : PExpr) : Nat → List Token → Option (List ExprNode × List Token)
| 0, _ => Option.none
| Nat.succ f, toks =>
  pbind (pE (acceptOpt toks TokenType.TT_AN)) fun e r =>
  if peekToken r TokenType.TT_MKAY = true then Option.some ([e], r)
  else
    pbind (naryArgsPlus pE f r) fun es r2 => Option.some (e :: es, r2)

/-- parseOpExprNode's step, following the EBNF productions
  OpExprNode ::= UnaryOp | BinaryOp | NaryOp
  UnaryOp    ::= UnaryOpType ExprNode          (UnaryOpType ::= TT_NOT)
  BinaryOp   ::= BinaryOpType ExprNode TT_AN ? ExprNode
  NaryOp     ::= NaryOpType NaryOpArgs TT_MKAY
The sub-parser for operands is passed in; `f` bounds the n-ary operand
list length. -/
def opExprStep (f : Nat) (pE : PExpr) (toks : List Token) : Option (ExprNode × List Token) :=
  match toks with
  | [] => Option.none
  | tk :: rest =>
    if tk.type = TokenType.TT_NOT then
      pbind (pE rest) fun e r =>
      Option.some (ExprNode.op (OpExprNode.mk OpType.OP_NOT [e]), r)
    else
      match binaryTokenOpType tk.type with
      | Option.some bop =>
        pbind (pE rest) fun e1 r1 =>
        pbind (pE (acceptOpt r1 TokenType.TT_AN)) fun e2 r2 =>
        Option.some (ExprNode.op (OpExprNode.mk bop [e1, e2]), r2)
      | Option.none =>
        match naryTokenOpType tk.type with
        | Option.none => Option.none
        | Option.some nop =>
          pbind (pE rest) fun e1 r1 =>
          pbind (naryArgsPlus pE f r1) fun es r2 =>
          tbind (nextToken r2 TokenType.TT_MKAY) fun r3 =>
          Option.some (ExprNode.op (OpExprNode.mk nop (e1 :: es)), r3)

/-- parseCastExprNode's step, following the EBNF production
  CastExprNode ::= TT_MAEK ExprNode TT_A TypeNode. -/
def castExprStep (pE : PExpr) (toks : List Token) : Option (ExprNode × List Token) :=
  tbind (acceptToken toks TokenType.TT_MAEK) fun r1 =>
  pbind (pE r1) fun e r2 =>
  tbind (nextToken r2 TokenType.TT_A) fun r3 =>
  pbind (parseTypeNode r3) fun t r4 =>
  Option.some (ExprNode.cast (CastExprNode.mk e t), r4)

/-- The `(TT_ANYR <arg>)*` tail of a function-call argument list. -/
def callArgsRest (pE : PExpr) : Nat → List Token → Option (List ExprNode × List Token)
| 0, _ => Option.none
| Nat.succ f, toks =>
  match acceptToken toks TokenType.TT_ANYR with
  | Option.none => Option.some ([], toks)
  | Option.some r =>
    pbind (pE r) fun e r2 =>
    pbind (callArgsRest pE f r2) fun es r3 => Option.some (e :: es, r3)

/-- parseFuncCallExprNode's step after the scope identifier and the IZ
keyword have been consumed, following the EBNF production
  FuncCallExprNode ::= IdentifierNode TT_IZ IdentifierNode FunctionArgs ? TT_MKAY
with call arguments parsed as expressions (the FuncCallExprNode struct stores
an ExprNodeList): `TT_YR <arg> (TT_ANYR <arg>)*`. -/
def funcCallTail (f : Nat) (pI : PIdent) (pE : PExpr) (scope : IdentifierNode)
    (toks : List Token) : Option (ExprNode × List Token) :=
  pbind (pI toks) fun name r1 =>
  match acceptToken r1 TokenType.TT_YR with
  | Option.none =>
    tbind (nextToken r1 TokenType.TT_MKAY) fun r2 =>
    Option.some (ExprNode.funcCall (FuncCallExprNode.mk scope name []), r2)
  | Option.some r2 =>
    pbind (pE r2) fun a1 r3 =>
    pbind (callArgsRest pE f r3) fun args2 r4 =>
    tbind (nextToken r4 TokenType.TT_MKAY) fun r5 =>
    Option.some (ExprNode.funcCall (FuncCallExprNode.mk scope name (a1 :: args2)), r5)

/-- The slot tail of an identifier: after the base form, an apostrophe-Z
keyword introduces a recursively parsed slot identifier (spec section 4.2). -/
def identSlotTail (pSelf : PIdent) (id : IdentifierId) (fn : String) (ln : Nat)
    (toks : List Token) : Option (IdentifierNode × List Token) :=
  match acceptToken toks TokenType.TT_APOSTROPHEZ with
  | Option.none => Option.some (IdentifierNode.mk id fn ln Option.none, toks)
  | Option.some r =>
    pbind (pSelf r) fun slot r2 =>
    Option.some (IdentifierNode.mk id fn ln (Option.some slot), r2)

/-- parseIdentifierNode's step, following the EBNF production
  IdentifierNode ::= Identifier | TT_SRS ExprNode
plus the optional apostrophe-Z slot suffix of spec section 4.2.  The node
records the file name and line of its first token. -/
def identStep (pE : PExpr) (pSelf : PIdent) (toks : List Token) : Option (IdentifierNode × List Token) :=
  match toks with
  | [] => Option.none
  | tk :: rest =>
    match tk.type, tk.payload with
    | TokenType.TT_IDENTIFIER, TokenPayload.pstr s =>
      identSlotTail pSelf (IdentifierId.direct s) tk.fname tk.line rest
    | TokenType.TT_SRS, _ =>
      pbind (pE rest) fun e r =>
      identSlotTail pSelf (IdentifierId.indirect e) tk.fname tk.line r
    | _, _ => Option.none

/-- parseExprNode's step: dispatch on the current token class per the table
of spec section 4.3 (cast, constant, implicit variable, identifier or
function call distinguished by an IZ look-ahead, operator). -/
def exprStep (f : Nat) (pI : PIdent) (pE : PExpr) (toks : List Token) : Option (ExprNode × List Token) :=
  match toks with
  | [] => Option.none
  | tk :: rest =>
    match tk.type with
    | TokenType.TT_MAEK => castExprStep pE toks
    | TokenType.TT_INTEGER | TokenType.TT_FLOAT | TokenType.TT_STRING | TokenType.TT_BOOLEAN =>
      pbind (parseConstantNode toks) fun c r =>
      Option.some (ExprNode.constant c, r)
    | TokenType.TT_IT => Option.some (ExprNode.impVar, rest)
    | TokenType.TT_IDENTIFIER | TokenType.TT_SRS =>
      pbind (pI toks) fun idn r =>
      (match acceptToken r TokenType.TT_IZ with
       | Option.none => Option.some (ExprNode.identifier idn, r)
       | Option.some r2 => funcCallTail f pI pE idn r2)
    | _ => opExprStep f pE toks

/-- parseCastStmtNode's step, following the EBNF production
  CastStmtNode ::= IdentifierNode TT_ISNOWA TypeNode TT_NEWLINE. -/
def castStmtStep (pI : PIdent) (toks : List Token) : Option (StmtNode × List Token) :=
  pbind (pI toks) fun target r1 =>
  tbind (nextToken r1 TokenType.TT_ISNOWA) fun r2 =>
  pbind (parseTypeNode r2) fun t r3 =>
  tbind (nextToken r3 TokenType.TT_NEWLINE) fun r4 =>
  Option.some (StmtNode.castStmt (CastStmtNode.mk target t), r4)

/-- The expression list of a print statement after the first expression:
expressions are collected until the bang or the newline is reached
(spec section 4.4, Print). -/
def printArgsLoop (pE : PExpr) : Nat → List Token → Option (List ExprNode × List Token)
| 0, _ => Option.none
| Nat.succ f, toks =>
  if peekToken toks TokenType.TT_BANG = true then Option.some ([], toks)
  else if peekToken toks TokenType.TT_NEWLINE = true then Option.some ([], toks)
  else
    pbind (pE toks) fun e r =>
    pbind (printArgsLoop pE f r) fun es r2 => Option.some (e :: es, r2)

/-- parsePrintStmtNode's step, following the EBNF production
  PrintStmtNode ::= TT_VISIBLE ExprNodeList TT_BANG ? TT_NEWLINE
with the nonl flag recording whether the bang was present. -/
def printStep (f : Nat) (pE : PExpr) (toks : List Token) : Option (StmtNode × List Token) :=
  tbind (acceptToken toks TokenType.TT_VISIBLE) fun r1 =>
  pbind (pE r1) fun e1 r2 =>
  pbind (printArgsLoop pE f r2) fun es r3 =>
  match acceptToken r3 TokenType.TT_BANG with
  | Option.some r4 =>
    tbind (nextToken r4 TokenType.TT_NEWLINE) fun r5 =>
    Option.some (StmtNode.printStmt (PrintStmtNode.mk (e1 :: es) true), r5)
  | Option.none =>
    tbind (nextToken r3 TokenType.TT_NEWLINE) fun r5 =>
    Option.some (StmtNode.printStmt (PrintStmtNode.mk (e1 :: es) false), r5)

/-- parseInputStmtNode's step, following the EBNF production
  InputStmtNode ::= TT_GIMMEH IdentifierNode TT_NEWLINE. -/
def inputStep (pI : PIdent) (toks : List Token) : Option (StmtNode × List Token) :=
  tbind (acceptToken toks TokenType.TT_GIMMEH) fun r1 =>
  pbind (pI r1) fun target r2 =>
  tbind (nextToken r2 TokenType.TT_NEWLINE) fun r3 =>
  Option.some (StmtNode.inputStmt (InputStmtNode.mk target), r3)

/-- parseAssignmentStmtNode's step, following the EBNF production
  AssignmentStmtNode ::= IdentifierNode TT_R ExprNode TT_NEWLINE. -/
def assignmentStep (pI : PIdent) (pE : PExpr) (toks : List Token) : Option (StmtNode × List Token) :=
  pbind (pI toks) fun target r1 =>
  tbind (nextToken r1 TokenType.TT_R) fun r2 =>
  pbind (pE r2) fun e r3 =>
  tbind (nextToken r3 TokenType.TT_NEWLINE) fun r4 =>
  Option.some (StmtNode.assignmentStmt (AssignmentStmtNode.mk target e), r4)

/-- The optional initializer of a declaration, following the EBNF production
  Initialization ::= TT_ITZ ExprNode | TT_ITZA TypeNode | TT_ITZLIEKA IdentifierNode
The result triple populates the slot of the one alternative taken (all
three stay empty when no initializer keyword is present). -/
def declInitTail (pI : PIdent) (pE : PExpr) (toks : List Token) :
    Option ((Option ExprNode × Option TypeNode × Option IdentifierNode) × List Token) :=
  match acceptToken toks TokenType.TT_ITZ with
  | Option.some r =>
    pbind (pE r) fun e r2 => Option.some ((Option.some e, Option.none, Option.none), r2)
  | Option.none =>
    match acceptToken toks TokenType.TT_ITZA with
    | Option.some r =>
      pbind (parseTypeNode r) fun t r2 => Option.some ((Option.none, Option.some t, Option.none), r2)
    | Option.none =>
      match acceptToken toks TokenType.TT_ITZLIEKA with
      | Option.some r =>
        pbind (pI r) fun p r2 => Option.some ((Option.none, Option.none, Option.some p), r2)
      | Option.none => Option.some ((Option.none, Option.none, Option.none), toks)

/-- parseDeclarationStmtNode's step, following the EBNF production
  DeclarationStmtNode ::= IdentifierNode TT_HASA IdentifierNode Initialization ? TT_NEWLINE
A second initializer cannot follow the first: the token after the single
Initialization must be the NEWLINE. -/
def declarationStep (pI : PIdent) (pE : PExpr) (toks : List Token) : Option (StmtNode × List Token) :=
  pbind (pI toks) fun scope r1 =>
  tbind (nextToken r1 TokenType.TT_HASA) fun r2 =>
  pbind (pI r2) fun target r3 =>
  pbind (declInitTail pI pE r3) fun ini r4 =>
  tbind (nextToken r4 TokenType.TT_NEWLINE) fun r5 =>
  Option.some (StmtNode.declarationStmt
    (DeclarationStmtNode.mk scope target ini.1 ini.2.1 ini.2.2), r5)

/-- The `ElseIf *` part of an if/then/else, following the EBNF production
  ElseIf ::= TT_MEBBE ExprNode TT_NEWLINE BlockNode
Each iteration contributes one guard and one block, so the two lists grow in
lockstep. -/
def elseIfsLoop (pE : PExpr) (pB : PBlock) : Nat → List Token → Option ((List ExprNode × List BlockNode) × List Token)
| 0, _ => Option.none
| Nat.succ f, toks =>
  match acceptToken toks TokenType.TT_MEBBE with
  | Option.none => Option.some (([], []), toks)
  | Option.some r =>
    pbind (pE r) fun g r2 =>
    tbind (nextToken r2 TokenType.TT_NEWLINE) fun r3 =>
    pbind (pB r3) fun b r4 =>
    pbind (elseIfsLoop pE pB f r4) fun gb r5 =>
    Option.some ((g :: gb.1, b :: gb.2), r5)

/-- The optional `Else` branch, following the EBNF production
  Else ::= TT_NOWAI TT_NEWLINE BlockNode. -/
def noWaiTail (pB : PBlock) (toks : List Token) : Option (Option BlockNode × List Token) :=
  match acceptToken toks TokenType.TT_NOWAI with
  | Option.none => Option.some (Option.none, toks)
  | Option.some r =>
    tbind (nextToken r TokenType.TT_NEWLINE) fun r2 =>
    pbind (pB r2) fun b r3 => Option.some (Option.some b, r3)

/-- parseIfThenElseStmtNode's step, following the EBNF production
  IfThenElseStmtNode ::= TT_ORLY TT_NEWLINE TT_YARLY TT_NEWLINE BlockNode
                         ElseIf * Else ? TT_OIC TT_NEWLINE. -/
def ifThenElseStep (f : Nat) (pE : PExpr) (pB : PBlock) (toks : List Token) : Option (StmtNode × List Token) :=
  tbind (acceptToken toks TokenType.TT_ORLY) fun r1 =>
  tbind (nextToken r1 TokenType.TT_NEWLINE) fun r2 =>
  tbind (nextToken r2 TokenType.TT_YARLY) fun r3 =>
  tbind (nextToken r3 TokenType.TT_NEWLINE) fun r4 =>
  pbind (pB r4) fun yes r5 =>
  pbind (elseIfsLoop pE pB f r5) fun gb r6 =>
  pbind (noWaiTail pB r6) fun noOpt r7 =>
  tbind (nextToken r7 TokenType.TT_OIC) fun r8 =>
  tbind (nextToken r8 TokenType.TT_NEWLINE) fun r9 =>
  Option.some (StmtNode.ifThenElseStmt (IfThenElseStmtNode.mk yes noOpt gb.1 gb.2), r9)

/-- The `Case *` tail of a switch after its first case, following the EBNF
production
  Case ::= TT_OMG ExprNode TT_NEWLINE BlockNode
Each iteration contributes one guard and one block in lockstep. -/
def switchCasesLoop (pE : PExpr) (pB : PBlock) : Nat → List Token → Option ((List ExprNode × List BlockNode) × List Token)
| 0, _ => Option.none
| Nat.succ f, toks =>
  match acceptToken toks TokenType.TT_OMG with
  | Option.none => Option.some (([], []), toks)
  | Option.some r =>
    pbind (pE r) fun g r2 =>
    tbind (nextToken r2 TokenType.TT_NEWLINE) fun r3 =>
    pbind (pB r3) fun b r4 =>
    pbind (switchCasesLoop pE pB f r4) fun gb r5 =>
    Option.some ((g :: gb.1, b :: gb.2), r5)

/-- The optional `DefaultCase`, following the EBNF production
  DefaultCase ::= TT_OMGWTF TT_NEWLINE BlockNode. -/
def defaultCaseTail (pB : PBlock) (toks : List Token) : Option (Option BlockNode × List Token) :=
  match acceptToken toks TokenType.TT_OMGWTF with
  | Option.none => Option.some (Option.none, toks)
  | Option.some r =>
    tbind (nextToken r TokenType.TT_NEWLINE) fun r2 =>
    pbind (pB r2) fun b r3 => Option.some (Option.some b, r3)

/-- parseSwitchStmtNode's step, following the EBNF production
  SwitchStmtNode ::= TT_WTF TT_NEWLINE Case + DefaultCase ? TT_OIC TT_NEWLINE. -/
def switchStep (f : Nat) (pE : PExpr) (pB : PBlock) (toks : List Token) : Option (StmtNode × List Token) :=
  tbind (acceptToken toks TokenType.TT_WTF) fun r1 =>
  tbind (nextToken r1 TokenType.TT_NEWLINE) fun r2 =>
  tbind (nextToken r2 TokenType.TT_OMG) fun r3 =>
  pbind (pE r3) fun g1 r4 =>
  tbind (nextToken r4 TokenType.TT_NEWLINE) fun r5 =>
  pbind (pB r5) fun b1 r6 =>
  pbind (switchCasesLoop pE pB f r6) fun gb r7 =>
  pbind (defaultCaseTail pB r7) fun defOpt r8 =>
  tbind (nextToken r8 TokenType.TT_OIC) fun r9 =>
  tbind (nextToken r9 TokenType.TT_NEWLINE) fun r10 =>
  Option.some (StmtNode.switchStmt (SwitchStmtNode.mk (g1 :: gb.1) (b1 :: gb.2) defOpt), r10)

/-- parseBreakStmtNode's step, following the EBNF production
  BreakStmt ::= TT_GTFO TT_NEWLINE. -/
def breakStep (toks : List Token) : Option (StmtNode × List Token) :=
  tbind (acceptToken toks TokenType.TT_GTFO) fun r1 =>
  tbind (nextToken r1 TokenType.TT_NEWLINE) fun r2 =>
  Option.some (StmtNode.breakStmt, r2)

/-- parseReturnStmtNode's step, following the EBNF production
  ReturnStmtNode ::= TT_FOUNDYR ExprNode TT_NEWLINE. -/
def returnStep (pE : PExpr) (toks : List Token) : Option (StmtNode × List Token) :=
  tbind (acceptToken toks TokenType.TT_FOUNDYR) fun r1 =>
  pbind (pE r1) fun e r2 =>
  tbind (nextToken r2 TokenType.TT_NEWLINE) fun r3 =>
  Option.some (StmtNode.returnStmt (ReturnStmtNode.mk e), r3)

/-- Name equality used for the loop opener/closer check.  Modelled from the
spec: the closing name must textually match the opening name (string
equality of the direct names; an indirect name has no text to compare). -/
def loopNameEq (a b : IdentifierNode) : Bool :=
  match directNameOf a, directNameOf b with
  | Option.some x, Option.some y => x = y
  | _, _ => false

/-- The optional `LoopUpdate`, following the EBNF productions
  LoopUpdate   ::= LoopUpdateOp TT_YR IdentifierNode
  LoopUpdateOp ::= TT_UPPIN | TT_NERFIN | UnaryFunction
Modelled from the spec: the update expression synthesized for UPPIN / NERFIN
is an increment / decrement of the variable, and a unary-function update is a
call of that function on the variable (the parser accepts any identifier as
the function; arity checking belongs to the evaluator). -/
def loopUpdateTail (pI : PIdent) (toks : List Token) :
    Option ((Option IdentifierNode × Option ExprNode) × List Token) :=
  match toks with
  | [] => Option.some ((Option.none, Option.none), toks)
  | tk :: rest =>
    match tk.type with
    | TokenType.TT_UPPIN =>
      tbind (nextToken rest TokenType.TT_YR) fun r2 =>
      pbind (pI r2) fun v r3 =>
      Option.some ((Option.some v, Option.some (ExprNode.op (OpExprNode.mk OpType.OP_ADD
        [ExprNode.identifier v, ExprNode.constant (createIntegerConstantNode 1)]))), r3)
    | TokenType.TT_NERFIN =>
      tbind (nextToken rest TokenType.TT_YR) fun r2 =>
      pbind (pI r2) fun v r3 =>
      Option.some ((Option.some v, Option.some (ExprNode.op (OpExprNode.mk OpType.OP_SUB
        [ExprNode.identifier v, ExprNode.constant (createIntegerConstantNode 1)]))), r3)
    | TokenType.TT_IDENTIFIER =>
      pbind (pI toks) fun fn r1 =>
      tbind (nextToken r1 TokenType.TT_YR) fun r2 =>
      pbind (pI r2) fun v r3 =>
      Option.some ((Option.some v, Option.some (ExprNode.funcCall
        (FuncCallExprNode.mk fn fn [ExprNode.identifier v]))), r3)
    | _ => Option.some ((Option.none, Option.none), toks)

/-- The optional `LoopGuard`, following the EBNF production
  LoopGuard ::= TT_TIL ExprNode | TT_WILE ExprNode. -/
def loopGuardTail (pE : PExpr) (toks : List Token) : Option (Option ExprNode × List Token) :=
  match acceptToken toks TokenType.TT_TIL with
  | Option.some r => pbind (pE r) fun e r2 => Option.some (Option.some e, r2)
  | Option.none =>
    match acceptToken toks TokenType.TT_WILE with
    | Option.some r => pbind (pE r) fun e r2 => Option.some (Option.some e, r2)
    | Option.none => Option.some (Option.none, toks)

/-- The closing section of a loop statement: TT_IMOUTTAYR, the closing
identifier, then the NEWLINE.  Modelled from the spec: the parse succeeds only
when the closing identifier string-equals the opening name; on mismatch the
parser emits a name-mismatch diagnostic and fails. -/
def loopCloseStep (pI : PIdent) (name : IdentifierNode) (toks : List Token) : Option (List Token) :=
  tbind (nextToken toks TokenType.TT_IMOUTTAYR) fun r1 =>
  pbind (pI r1) fun closing r2 =>
  if loopNameEq name closing = true then nextToken r2 TokenType.TT_NEWLINE
  else Option.none

/-- parseLoopStmtNode's step, following the EBNF production
  LoopStmtNode ::= TT_IMINYR IdentifierNode LoopUpdate ? LoopGuard ?
                   TT_NEWLINE BlockNode TT_IMOUTTAYR IdentifierNode TT_NEWLINE
plus the name-match check of loopCloseStep. -/
def loopStep (pI : PIdent) (pE : PExpr) (pB : PBlock) (toks : List Token) : Option (StmtNode × List Token) :=
  tbind (acceptToken toks TokenType.TT_IMINYR) fun r1 =>
  pbind (pI r1) fun name r2 =>
  pbind (loopUpdateTail pI r2) fun vu r3 =>
  pbind (loopGuardTail pE r3) fun g r4 =>
  tbind (nextToken r4 TokenType.TT_NEWLINE) fun r5 =>
  pbind (pB r5) fun body r6 =>
  tbind (loopCloseStep pI name r6) fun r7 =>
  Option.some (StmtNode.loopStmt (LoopStmtNode.mk name vu.1 g vu.2 body), r7)

/-- parseDeallocationStmtNode's step, following the EBNF production
  DeallocationStmtNode ::= IdentifierNode TT_RNOOB
exactly as written in parser.h (line 130): unlike every other statement
production of the same grammar it contains no terminating TT_NEWLINE, so the
statement is complete as soon as R NOOB is consumed. -/
def deallocationStep (pI : PIdent) (toks : List Token) : Option (StmtNode × List Token) :=
  pbind (pI toks) fun target r1 =>
  tbind (nextToken r1 TokenType.TT_RNOOB) fun r2 =>
  Option.some (StmtNode.deallocationStmt (DeallocationStmtNode.mk target), r2)

/-- The `(TT_ANYR IdentifierNode)*` tail of a function definition's
argument list (EBNF FunctionArg *). -/
def defArgsRest (pI : PIdent) : Nat → List Token → Option (List IdentifierNode × List Token)
| 0, _ => Option.none
| Nat.succ f, toks =>
  match acceptToken toks TokenType.TT_ANYR with
  | Option.none => Option.some ([], toks)
  | Option.some r =>
    pbind (pI r) fun a r2 =>
    pbind (defArgsRest pI f r2) fun as2 r3 => Option.some (a :: as2, r3)

/-- The optional `FunctionArgs` of a function definition, following the EBNF
production FunctionArgs ::= TT_YR IdentifierNode FunctionArg *. -/
def defArgsTail (pI : PIdent) (f : Nat) (toks : List Token) : Option (List IdentifierNode × List Token) :=
  match acceptToken toks TokenType.TT_YR with
  | Option.none => Option.some ([], toks)
  | Option.some r =>
    pbind (pI r) fun a r2 =>
    pbind (defArgsRest pI f r2) fun as2 r3 => Option.some (a :: as2, r3)

/-- parseFuncDefStmtNode's step, following the EBNF production
  FuncDefStmtNode ::= TT_HOWIZ IdentifierNode IdentifierNode FunctionArgs ?
                      TT_NEWLINE BlockNode TT_IFUSAYSO TT_NEWLINE. -/
def funcDefStep (f : Nat) (pI : PIdent) (pB : PBlock) (toks : List Token) : Option (StmtNode × List Token) :=
  tbind (acceptToken toks TokenType.TT_HOWIZ) fun r1 =>
  pbind (pI r1) fun scope r2 =>
  pbind (pI r2) fun name r3 =>
  pbind (defArgsTail pI f r3) fun args2 r4 =>
  tbind (nextToken r4 TokenType.TT_NEWLINE) fun r5 =>
  pbind (pB r5) fun body r6 =>
  tbind (nextToken r6 TokenType.TT_IFUSAYSO) fun r7 =>
  tbind (nextToken r7 TokenType.TT_NEWLINE) fun r8 =>
  Option.some (StmtNode.funcDefStmt (FuncDefStmtNode.mk scope name args2 body), r8)

/-- The optional `AltArrayInheritance`, following the EBNF production
  AltArrayInheritance ::= TT_IMLIEK IdentifierNode. -/
def altArrayParentTail (pI : PIdent) (toks : List Token) : Option (Option IdentifierNode × List Token) :=
  match acceptToken toks TokenType.TT_IMLIEK with
  | Option.none => Option.some (Option.none, toks)
  | Option.some r => pbind (pI r) fun p r2 => Option.some (Option.some p, r2)

/-- parseAltArrayDefStmtNode's step, following the EBNF production
  AltArrayDefStmtNode ::= TT_OHAIIM IdentifierNode AltArrayInheritance ?
                          TT_NEWLINE BlockNode TT_KTHX TT_NEWLINE. -/
def altArrayDefStep (pI : PIdent) (pB : PBlock) (toks : List Token) : Option (StmtNode × List Token) :=
  tbind (acceptToken toks TokenType.TT_OHAIIM) fun r1 =>
  pbind (pI r1) fun name r2 =>
  pbind (altArrayParentTail pI r2) fun par r3 =>
  tbind (nextToken r3 TokenType.TT_NEWLINE) fun r4 =>
  pbind (pB r4) fun body r5 =>
  tbind (nextToken r5 TokenType.TT_KTHX) fun r6 =>
  tbind (nextToken r6 TokenType.TT_NEWLINE) fun r7 =>
  Option.some (StmtNode.altArrayDefStmt (AltArrayDefStmtNode.mk name body par), r7)

/-- An expression statement, following the EBNF production
  ExprStmt ::= ExprNode TT_NEWLINE. -/
def exprStmtStep (pE : PExpr) (toks : List Token) : Option (StmtNode × List Token) :=
  pbind (pE toks) fun e r1 =>
  tbind (nextToken r1 TokenType.TT_NEWLINE) fun r2 =>
  Option.some (StmtNode.exprStmt e, r2)

/-- parseStmtNode's step: dispatch on the current token kind (spec section
4.4).  Modelled from the spec: a statement beginning with an identifier is
disambiguated by speculatively parsing the identifier and peeking at the
following token (IS NOW A, R NOOB, R, HAS A); any other leading token falls
through to the expression-statement production. -/
def stmtStep (f : Nat) (pI : PIdent) (pE : PExpr) (pB : PBlock) (toks : List Token) : Option (StmtNode × List Token) :=
  match toks with
  | [] => Option.none
  | tk :: _ =>
    match tk.type with
    | TokenType.TT_VISIBLE => printStep f pE toks
    | TokenType.TT_GIMMEH => inputStep pI toks
    | TokenType.TT_ORLY => ifThenElseStep f pE pB toks
    | TokenType.TT_WTF => switchStep f pE pB toks
    | TokenType.TT_GTFO => breakStep toks
    | TokenType.TT_FOUNDYR => returnStep pE toks
    | TokenType.TT_IMINYR => loopStep pI pE pB toks
    | TokenType.TT_HOWIZ => funcDefStep f pI pB toks
    | TokenType.TT_OHAIIM => altArrayDefStep pI pB toks
    | TokenType.TT_IDENTIFIER | TokenType.TT_SRS =>
      pbind (pI toks) fun _ r =>
      if peekToken r TokenType.TT_ISNOWA = true then castStmtStep pI toks
      else if peekToken r TokenType.TT_RNOOB = true then deallocationStep pI toks
      else if peekToken r TokenType.TT_R = true then assignmentStep pI pE toks
      else if peekToken r TokenType.TT_HASA = true then declarationStep pI pE toks
      else exprStmtStep pE toks
    | _ => exprStmtStep pE toks

/-- True when the current token closes the enclosing block: end of file, the
program footer, or one of the closing keywords of the nested constructs
(spec section 4.4: a block is terminated by its construct's closing
keyword). -/
def isBlockEnder (t : TokenType) : Bool :=
  match t with
  | TokenType.TT_EOF => true
  | TokenType.TT_KTHXBYE => true
  | TokenType.TT_OIC => true
  | TokenType.TT_MEBBE => true
  | TokenType.TT_NOWAI => true
  | TokenType.TT_OMG => true
  | TokenType.TT_OMGWTF => true
  | TokenType.TT_IFUSAYSO => true
  | TokenType.TT_IMOUTTAYR => true
  | TokenType.TT_KTHX => true
  | _ => false

/-- The statement list of a block, following the EBNF production
  BlockNode ::= StmtNode *
statements are parsed until the current token closes the block. -/
def blockStmtsLoop (pS : PStmt) : Nat → List Token → Option (List StmtNode × List Token)
| 0, _ => Option.none
| Nat.succ f, toks =>
  match toks with
  | [] => Option.some ([], toks)
  | tk :: _ =>
    if isBlockEnder tk.type = true then Option.some ([], toks)
    else
      pbind (pS toks) fun st r =>
      pbind (blockStmtsLoop pS f r) fun sts r2 => Option.some (st :: sts, r2)

/-- parseBlockNode's step. -/
def blockStep (f : Nat) (pS : PStmt) (toks : List Token) : Option (BlockNode × List Token) :=
  pbind (blockStmtsLoop pS f toks) fun sts r => Option.some (BlockNode.mk sts, r)

/-- The four mutually recursive parsers, tied together level by level. -/
structure Pack : Type where
  pIdent : PIdent
  pExpr : PExpr
  pStmt : PStmt
  pBlock : PBlock

/-- Level zero: out of fuel, every parse fails. -/
def packZero : Pack :=
  Pack.mk (fun _ => Option.none) (fun _ => Option.none) (fun _ => Option.none) (fun _ => Option.none)

/-- One level of the mutual recursion: each parser is its step function over
the parsers of the previous level. -/
def packStep (f : Nat) (p : Pack) : Pack :=
  Pack.mk
    (identStep p.pExpr p.pIdent)
    (exprStep f p.pIdent p.pExpr)
    (stmtStep f p.pIdent p.pExpr p.pBlock)
    (blockStep f p.pStmt)

/-- The parser pack with the given recursion depth (fuel).  Fuel only bounds
nesting depth and list lengths; any fuel large enough for the input gives the
parse the C recursion computes. -/
def packAt : Nat → Pack
| 0 => packZero
| Nat.succ f => packStep f (packAt f)

/-- parseIdentifierNode from parser.h (fuel-indexed). -/
def parseIdentifierNode (fuel : Nat) : PIdent := (packAt fuel).pIdent

/-- parseExprNode from parser.h (fuel-indexed). -/
def parseExprNode (fuel : Nat) : PExpr := (packAt fuel).pExpr

/-- parseStmtNode from parser.h (fuel-indexed). -/
def parseStmtNode (fuel : Nat) : PStmt := (packAt fuel).pStmt

/-- parseBlockNode from parser.h (fuel-indexed). -/
def parseBlockNode (fuel : Nat) : PBlock := (packAt fuel).pBlock

/-- parseOpExprNode from parser.h (fuel-indexed). -/
def parseOpExprNode (fuel : Nat) : PExpr := opExprStep fuel (parseExprNode fuel)

/-- parseDeclarationStmtNode from parser.h (fuel-indexed). -/
def parseDeclarationStmtNode (fuel : Nat) : PStmt :=
  declarationStep (parseIdentifierNode fuel) (parseExprNode fuel)

/-- parseLoopStmtNode from parser.h (fuel-indexed). -/
def parseLoopStmtNode (fuel : Nat) : PStmt :=
  loopStep (parseIdentifierNode fuel) (parseExprNode fuel) (parseBlockNode fuel)

/-- parseDeallocationStmtNode from parser.h (fuel-indexed). -/
def parseDeallocationStmtNode (fuel : Nat) : PStmt :=
  deallocationStep (parseIdentifierNode fuel)

/-- parseIfThenElseStmtNode from parser.h (fuel-indexed). -/
def parseIfThenElseStmtNode (fuel : Nat) : PStmt :=
  ifThenElseStep fuel (parseExprNode fuel) (parseBlockNode fuel)

/-- parseSwitchStmtNode from parser.h (fuel-indexed). -/
def parseSwitchStmtNode (fuel : Nat) : PStmt :=
  switchStep fuel (parseExprNode fuel) (parseBlockNode fuel)

/-- parseMainNode from parser.h, following the EBNF production
  MainNode ::= TT_HAI version TT_NEWLINE BlockNode $
Modelled from the spec: the version token is accepted and discarded without
validation; the block runs to KTHXBYE or end of file. -/
def parseMainNode (fuel : Nat) (toks : List Token) : Option MainNode :=
  tbind (nextToken toks TokenType.TT_HAI) fun r1 =>
  match r1 with
  | [] => Option.none
  | vtk :: r2 =>
    (match vtk.type, r2 with
     | TokenType.TT_FLOAT, r2 => parseMainTail fuel r2
     | TokenType.TT_INTEGER, r2 => parseMainTail fuel r2
     | _, _ => parseMainTail fuel r1)

where
  parseMainTail (fuel : Nat) (toks : List Token) : Option MainNode :=
    tbind (nextToken toks TokenType.TT_NEWLINE) fun r3 =>
    pbind (parseBlockNode fuel r3) fun b r4 =>
    (match acceptToken r4 TokenType.TT_KTHXBYE with
     | Option.none =>
       (match r4 with
        | [tk] => if tk.type = TokenType.TT_EOF then Option.some (MainNode.mk b) else Option.none
        | _ => Option.none)
     | Option.some r5 =>
       tbind (nextToken r5 TokenType.TT_NEWLINE) fun r6 =>
       (match r6 with
        | [tk] => if tk.type = TokenType.TT_EOF then Option.some (MainNode.mk b) else Option.none
        | _ => Option.none))

/-- A keyword or structural token (no payload) on line 1 of a test input. -/
def kw (t : TokenType) : Token := Token.mk t TokenPayload.pnone "input.lol" 1

/-- An identifier token with the given name. -/
def idTok (s : String) : Token := Token.mk TokenType.TT_IDENTIFIER (TokenPayload.pstr s) "input.lol" 1

/-- An integer literal token. -/
def intTok (v : Int) : Token := Token.mk TokenType.TT_INTEGER (TokenPayload.pint v) "input.lol" 1

/-- The boolean literal WIN (tokenizer stores booleans as integer data). -/
def winTok : Token := Token.mk TokenType.TT_BOOLEAN (TokenPayload.pint 1) "input.lol" 1

/-- The WIN constant expression node that winTok parses to. -/
def winExprNode : ExprNode := ExprNode.constant (createBooleanConstantNode 1)

/-- The direct identifier node that `idTok s` parses to (no slot). -/
def dirIdent (s : String) : IdentifierNode :=
  IdentifierNode.mk (IdentifierId.direct s) "input.lol" 1 Option.none

/-- Tokens of `ALL OF WIN MKAY`: an n-ary operator applied to exactly one
operand before its terminator. -/
def naryOneOperandToks : List Token :=
  [kw TokenType.TT_ALLOF, winTok, kw TokenType.TT_MKAY, kw TokenType.TT_EOF]

/-- Tokens of `ALL OF WIN AN WIN MKAY`. -/
def naryTwoOperandToks : List Token :=
  [kw TokenType.TT_ALLOF, winTok, kw TokenType.TT_AN, winTok, kw TokenType.TT_MKAY, kw TokenType.TT_EOF]

/-- Tokens of `ALL OF WIN AN WIN` followed by the end of the line: the
terminator MKAY is missing (spec section 8, scenario 6). -/
def naryNoMkayToks : List Token :=
  [kw TokenType.TT_ALLOF, winTok, kw TokenType.TT_AN, winTok, kw TokenType.TT_NEWLINE, kw TokenType.TT_EOF]

/-- Tokens of `I HAS A x ITZ 42` and the end of the line. -/
def declOneInitToks : List Token :=
  [idTok "I", kw TokenType.TT_HASA, idTok "x", kw TokenType.TT_ITZ, intTok 42,
   kw TokenType.TT_NEWLINE, kw TokenType.TT_EOF]

/-- Tokens of `I HAS A x ITZ 42 ITZ A NUMBR`: a declaration supplying two
initializers. -/
def declTwoInitToks : List Token :=
  [idTok "I", kw TokenType.TT_HASA, idTok "x", kw TokenType.TT_ITZ, intTok 42,
   kw TokenType.TT_ITZA, kw TokenType.TT_NUMBR, kw TokenType.TT_NEWLINE, kw TokenType.TT_EOF]

/-- Tokens of spec section 8 scenario 5 (statement part): a loop opened as
`IM IN YR A` and closed as `IM OUTTA YR B`. -/
def loopMismatchToks : List Token :=
  [kw TokenType.TT_IMINYR, idTok "A", kw TokenType.TT_UPPIN, kw TokenType.TT_YR, idTok "I",
   kw TokenType.TT_TIL, kw TokenType.TT_BOTHSAEM, idTok "I", kw TokenType.TT_AN, intTok 10,
   kw TokenType.TT_NEWLINE,
   kw TokenType.TT_VISIBLE, idTok "I", kw TokenType.TT_NEWLINE,
   kw TokenType.TT_IMOUTTAYR, idTok "B", kw TokenType.TT_NEWLINE, kw TokenType.TT_EOF]

/-- The same loop with the closing name matching the opening name. -/
def loopMatchToks : List Token :=
  [kw TokenType.TT_IMINYR, idTok "A", kw TokenType.TT_UPPIN, kw TokenType.TT_YR, idTok "I",
   kw TokenType.TT_TIL, kw TokenType.TT_BOTHSAEM, idTok "I", kw TokenType.TT_AN, intTok 10,
   kw TokenType.TT_NEWLINE,
   kw TokenType.TT_VISIBLE, idTok "I", kw TokenType.TT_NEWLINE,
   kw TokenType.TT_IMOUTTAYR, idTok "A", kw TokenType.TT_NEWLINE, kw TokenType.TT_EOF]

/-- Tokens of `x R NOOB` followed by the NEWLINE that ends its line. -/
def deallocToks : List Token :=
  [idTok "x", kw TokenType.TT_RNOOB, kw TokenType.TT_NEWLINE, kw TokenType.TT_EOF]

/-- Tokens of an if/then/else with one MEBBE branch:
`O RLY? / YA RLY / GTFO / MEBBE WIN / GTFO / OIC`. -/
def ifElseIfToks : List Token :=
  [kw TokenType.TT_ORLY, kw TokenType.TT_NEWLINE,
   kw TokenType.TT_YARLY, kw TokenType.TT_NEWLINE,
   kw TokenType.TT_GTFO, kw TokenType.TT_NEWLINE,
   kw TokenType.TT_MEBBE, winTok, kw TokenType.TT_NEWLINE,
   kw TokenType.TT_GTFO, kw TokenType.TT_NEWLINE,
   kw TokenType.TT_OIC, kw TokenType.TT_NEWLINE, kw TokenType.TT_EOF]

/-- Tokens of a switch with two cases:
`WTF? / OMG 1 / GTFO / OMG 2 / GTFO / OIC`. -/
def switchTwoCaseToks : List Token :=
  [kw TokenType.TT_WTF, kw TokenType.TT_NEWLINE,
   kw TokenType.TT_OMG, intTok 1, kw TokenType.TT_NEWLINE,
   kw TokenType.TT_GTFO, kw TokenType.TT_NEWLINE,
   kw TokenType.TT_OMG, intTok 2, kw TokenType.TT_NEWLINE,
   kw TokenType.TT_GTFO, kw TokenType.TT_NEWLINE,
   kw TokenType.TT_OIC, kw TokenType.TT_NEWLINE, kw TokenType.TT_EOF]

/-- Unfolding principle for pbind. -/
theorem pbind_eq_some {α β : Type} (x : Option (α × List Token)) (f : α → List Token → Option β) (b : β) :
    pbind x f = Option.some b ↔ ∃ a r, x = Option.some (a, r) ∧ f a r = Option.some b := by
  cases x with
  | none => simp [pbind]
  | some p =>
    cases p
    simp only [pbind]
    constructor
    · intro h; exact ⟨_, _, rfl, h⟩
    · rintro ⟨a, r, heq, h⟩; cases heq; exact h

/-- Unfolding principle for tbind. -/
theorem tbind_eq_some {β : Type} (x : Option (List Token)) (f : List Token → Option β) (b : β) :
    tbind x f = Option.some b ↔ ∃ r, x = Option.some r ∧ f r = Option.some b := by
  cases x <;> simp [tbind]

/-- A successful `NaryOpArg +` parse yields at least one operand. -/
theorem naryArgsPlus_length (pE : PExpr) (f : Nat) (toks : List Token)
    (es : List ExprNode) (rest : List Token)
    (h : naryArgsPlus pE f toks = Option.some (es, rest)) : 1 ≤ es.length := by
  induction f generalizing toks es rest with
  | zero => simp [naryArgsPlus] at h
  | succ f ih =>
    simp only [naryArgsPlus] at h
    rw [pbind_eq_some] at h
    obtain ⟨e, r, _, h⟩ := h
    split at h
    · cases h; simp
    · rw [pbind_eq_some] at h
      obtain ⟨es2, r2, _, h⟩ := h
      cases h; simp

/-- A token kind denoting an n-ary operator denotes no binary operator. -/
theorem nary_not_binary (t : TokenType) (o : OpType)
    (h : naryTokenOpType t = Option.some o) : binaryTokenOpType t = Option.none := by
  cases t <;> simp_all [naryTokenOpType, binaryTokenOpType]

/-- A token kind denoting an n-ary operator is not the NOT keyword. -/
theorem nary_not_notkw (t : TokenType) (o : OpType)
    (h : naryTokenOpType t = Option.some o) : t ≠ TokenType.TT_NOT := by
  intro he; rw [he] at h; simp [naryTokenOpType] at h

/-- A successful initializer parse populates at most one of the three
slots. -/
theorem declInitTail_count (pI : PIdent) (pE : PExpr) (toks : List Token)
    (ini : Option ExprNode × Option TypeNode × Option IdentifierNode) (rest : List Token)
    (h : declInitTail pI pE toks = Option.some (ini, rest)) :
    optCount ini.1 + optCount ini.2.1 + optCount ini.2.2 ≤ 1 := by
  unfold declInitTail at h
  split at h
  · rw [pbind_eq_some] at h
    obtain ⟨e, r2, _, h⟩ := h
    cases h; simp [optCount]
  · split at h
    · rw [pbind_eq_some] at h
      obtain ⟨t, r2, _, h⟩ := h
      cases h; simp [optCount]
    · split at h
      · rw [pbind_eq_some] at h
        obtain ⟨p, r2, _, h⟩ := h
        cases h; simp [optCount]
      · cases h; simp [optCount]

/-- The `ElseIf *` loop grows its guard and block lists in lockstep. -/
theorem elseIfsLoop_length (pE : PExpr) (pB : PBlock) (f : Nat) (toks : List Token)
    (gb : List ExprNode × List BlockNode) (rest : List Token)
    (h : elseIfsLoop pE pB f toks = Option.some (gb, rest)) : gb.1.length = gb.2.length := by
  induction f generalizing toks gb rest with
  | zero => simp [elseIfsLoop] at h
  | succ f ih =>
    simp only [elseIfsLoop] at h
    split at h
    · cases h; rfl
    · rw [pbind_eq_some] at h
      obtain ⟨g, r2, _, h⟩ := h
      rw [tbind_eq_some] at h
      obtain ⟨r3, _, h⟩ := h
      rw [pbind_eq_some] at h
      obtain ⟨b, r4, _, h⟩ := h
      rw [pbind_eq_some] at h
      obtain ⟨gb2, r5, h5, h⟩ := h
      cases h
      have := ih r4 gb2 _ h5
      simp [this]

/-- The `Case *` loop grows its guard and block lists in lockstep. -/
theorem switchCasesLoop_length (pE : PExpr) (pB : PBlock) (f : Nat) (toks : List Token)
    (gb : List ExprNode × List BlockNode) (rest : List Token)
    (h : switchCasesLoop pE pB f toks = Option.some (gb, rest)) : gb.1.length = gb.2.length := by
  induction f generalizing toks gb rest with
  | zero => simp [switchCasesLoop] at h
  | succ f ih =>
    simp only [switchCasesLoop] at h
    split at h
    · cases h; rfl
    · rw [pbind_eq_some] at h
      obtain ⟨g, r2, _, h⟩ := h
      rw [tbind_eq_some] at h
      obtain ⟨r3, _, h⟩ := h
      rw [pbind_eq_some] at h
      obtain ⟨b, r4, _, h⟩ := h
      rw [pbind_eq_some] at h
      obtain ⟨gb2, r5, h5, h⟩ := h
      cases h
      have := ih r4 gb2 _ h5
      simp [this]

/-- True exactly for the five type keywords of the TypeNode production. -/
def isTypeKeyword (t : TokenType) : Bool :=
  match t with
  | TokenType.TT_NOOB => true
  | TokenType.TT_TROOF => true
  | TokenType.TT_NUMBR => true
  | TokenType.TT_NUMBAR => true
  | TokenType.TT_YARN => true
  | _ => false

/-- Claim C1: the type-tag parser accepts exactly one of the five type
keywords NOOB, TROOF, NUMBR, NUMBAR, YARN (and nothing else, BUKKIT
included), and the tag it records ranges over exactly the corresponding
closed five-element set {CT_NIL, CT_BOOLEAN, CT_INTEGER, CT_FLOAT,
CT_STRING}, each of the five being attained. -/
theorem C1_type_tag_closed :
    (∀ (toks : List Token) (t : TypeNode) (rest : List Token),
        parseTypeNode toks = Option.some (t, rest) →
        (t.type = ConstantType.CT_NIL ∨ t.type = ConstantType.CT_BOOLEAN ∨
         t.type = ConstantType.CT_INTEGER ∨ t.type = ConstantType.CT_FLOAT ∨
         t.type = ConstantType.CT_STRING))
    ∧ (∀ (tk : Token) (rest0 : List Token),
        (parseTypeNode (tk :: rest0)).isSome = true ↔ isTypeKeyword tk.type = true)
    ∧ parseTypeNode [] = Option.none
    ∧ (parseTypeNode [kw TokenType.TT_NOOB]).map (fun p => p.1.type) = Option.some ConstantType.CT_NIL
    ∧ (parseTypeNode [kw TokenType.TT_TROOF]).map (fun p => p.1.type) = Option.some ConstantType.CT_BOOLEAN
    ∧ (parseTypeNode [kw TokenType.TT_NUMBR]).map (fun p => p.1.type) = Option.some ConstantType.CT_INTEGER
    ∧ (parseTypeNode [kw TokenType.TT_NUMBAR]).map (fun p => p.1.type) = Option.some ConstantType.CT_FLOAT
    ∧ (parseTypeNode [kw TokenType.TT_YARN]).map (fun p => p.1.type) = Option.some ConstantType.CT_STRING := by
  refine ⟨?_, ?_, rfl, rfl, rfl, rfl, rfl, rfl⟩
  · intro toks t rest h
    cases toks with
    | nil => simp [parseTypeNode] at h
    | cons tk r =>
      simp only [parseTypeNode] at h
      split_ifs at h <;> (cases h; simp)
  · intro tk rest0
    cases htk : tk.type <;> simp [parseTypeNode, isTypeKeyword, htk]

/-- Witness for C1_type_tag_closed at the concrete input TROOF. -/
theorem C1_type_tag_closed_witness :
    parseTypeNode [kw TokenType.TT_TROOF] = Option.some (TypeNode.mk ConstantType.CT_BOOLEAN, []) ∧
    ((TypeNode.mk ConstantType.CT_BOOLEAN).type = ConstantType.CT_NIL ∨
     (TypeNode.mk ConstantType.CT_BOOLEAN).type = ConstantType.CT_BOOLEAN ∨
     (TypeNode.mk ConstantType.CT_BOOLEAN).type = ConstantType.CT_INTEGER ∨
     (TypeNode.mk ConstantType.CT_BOOLEAN).type = ConstantType.CT_FLOAT ∨
     (TypeNode.mk ConstantType.CT_BOOLEAN).type = ConstantType.CT_STRING) :=
  ⟨rfl, C1_type_tag_closed.1 [kw TokenType.TT_TROOF] (TypeNode.mk ConstantType.CT_BOOLEAN) [] rfl⟩

/-- Claim C2, counterexample: an n-ary operator expression with exactly one
operand followed by MKAY (`ALL OF WIN MKAY`) is rejected, not accepted: the
EBNF production NaryOpArgs ::= ExprNode NaryOpArg + demands a second
operand. -/
theorem C2_single_operand_rejected : parseOpExprNode 24 naryOneOperandToks = Option.none := rfl

/-- Claim C2 as amended: an n-ary operator consumes a first operand followed
by ONE or more further operands (each optionally preceded by AN) and then
requires MKAY; every successful n-ary parse therefore carries at least two
operands, and a missing MKAY is a parse failure. -/
theorem C2_nary_one_or_more :
    (∀ (fuel : Nat) (tk : Token) (toks : List Token) (op : OpType) (e : ExprNode) (rest : List Token),
        naryTokenOpType tk.type = Option.some op →
        parseOpExprNode fuel (tk :: toks) = Option.some (e, rest) →
        ∃ args, e = ExprNode.op (OpExprNode.mk op args) ∧ 2 ≤ args.length)
    ∧ parseOpExprNode 24 naryTwoOperandToks =
        Option.some (ExprNode.op (OpExprNode.mk OpType.OP_AND [winExprNode, winExprNode]), [kw TokenType.TT_EOF])
    ∧ parseOpExprNode 24 naryNoMkayToks = Option.none := by
  refine ⟨?_, rfl, rfl⟩
  intro fuel tk toks op e rest hn h
  simp only [parseOpExprNode, opExprStep] at h
  split at h
  next hNot => exact absurd hNot (nary_not_notkw tk.type op hn)
  next hNot =>
    split at h
    next bop hbop =>
      have hdis := nary_not_binary tk.type op hn
      rw [hdis] at hbop
      cases hbop
    next hbop =>
      split at h
      next hnone => rw [hn] at hnone; cases hnone
      next nop hsome =>
        rw [hn] at hsome
        cases hsome
        rw [pbind_eq_some] at h
        obtain ⟨e1, r1, h1, h⟩ := h
        rw [pbind_eq_some] at h
        obtain ⟨es, r2, h2, h⟩ := h
        rw [tbind_eq_some] at h
        obtain ⟨r3, h3, h⟩ := h
        cases h
        refine ⟨e1 :: es, rfl, ?_⟩
        have hlen := naryArgsPlus_length _ _ _ _ _ h2
        simp only [List.length_cons]
        omega

/-- Witness for C2_nary_one_or_more at the concrete input
`ALL OF WIN AN WIN MKAY`. -/
theorem C2_nary_one_or_more_witness :
    naryTokenOpType (kw TokenType.TT_ALLOF).type = Option.some OpType.OP_AND ∧
    (∃ args, ExprNode.op (OpExprNode.mk OpType.OP_AND [winExprNode, winExprNode]) =
        ExprNode.op (OpExprNode.mk OpType.OP_AND args) ∧ 2 ≤ args.length) :=
  ⟨rfl, C2_nary_one_or_more.1 24 (kw TokenType.TT_ALLOF)
    [winTok, kw TokenType.TT_AN, winTok, kw TokenType.TT_MKAY, kw TokenType.TT_EOF]
    OpType.OP_AND
    (ExprNode.op (OpExprNode.mk OpType.OP_AND [winExprNode, winExprNode]))
    [kw TokenType.TT_EOF] rfl rfl⟩

/-- Claim C3, counterexample: the keyword table is not ordered longest-first
for arbitrary string prefixes: "IT" (table index 5) is a proper prefix of
"ITZ" (table index 19), yet the shorter spelling appears at the earlier
index. -/
theorem C3_string_prefix_order_counterexample :
    keywords.get? 5 = Option.some "IT" ∧
    keywords.get? 19 = Option.some "ITZ" ∧
    List.isPrefixOf ("IT" : String).data ("ITZ" : String).data = true ∧
    ("IT" : String) ≠ "ITZ" ∧
    (5 : Nat) < 19 :=
  ⟨rfl, rfl, by decide, by decide, by decide⟩

/-- Claim C3 as amended: the keyword table is ordered longest-first for
word-boundary prefixes, the only ones first-match whole-word tokenization is
sensitive to: whenever one spelling extended by a blank is a prefix of
another table entry (e.g. "R" of "R NOOB", "ITZ" of "ITZ A" and
"ITZ LIEK A", "AN" of "AN YR"), the longer spelling appears at a strictly
earlier index.  For arbitrary string prefixes that do not fall on a word
boundary (e.g. "IT" in "ITZ", "OMG" in "OMGWTF") the table is not
longest-first. -/
theorem C3_word_boundary_longest_first :
    ∀ i j : Fin keywords.length,
      wbPrefixOf (keywords.get i) (keywords.get j) = true → (j : Nat) < (i : Nat) := by
  decide

/-- Witness for C3_word_boundary_longest_first at the table entries "ITZ"
(index 19) and "ITZ A" (index 18). -/
theorem C3_word_boundary_longest_first_witness :
    wbPrefixOf (keywords.get (Fin.mk 19 (by decide))) (keywords.get (Fin.mk 18 (by decide))) = true ∧
    (18 : Nat) < 19 :=
  ⟨by decide, C3_word_boundary_longest_first (Fin.mk 19 (by decide)) (Fin.mk 18 (by decide)) (by decide)⟩

/-- Claim C4, counterexample: the operator discriminant OpType has exactly
fourteen variants, so it cannot comprise the sixteen pairwise distinct
variants the claim enumerates (the fourteen listed plus separate all-of and
any-of variants): no dedicated all-of or any-of variant exists. -/
theorem C4_optype_has_fourteen_variants :
    Fintype.card OpType = 14 ∧ ¬ (16 ≤ Fintype.card OpType) := by
  constructor
  · decide
  · decide

/-- Claim C4 as amended: the operator discriminant comprises exactly the
fourteen variants add, sub, mult, div, mod, max, min, and, or, xor, not, eq,
neq, concat; the n-ary ALL OF and ANY OF forms have no variants of their own
but reuse OP_AND and OP_OR, while cast is carried by the separate expression
variant ET_CAST rather than by any operator variant. -/
theorem C4_optype_exact_variants :
    (∀ o : OpType, o ∈ allOpTypes) ∧ allOpTypes.length = 14 ∧ allOpTypes.Nodup
    ∧ naryTokenOpType TokenType.TT_ALLOF = Option.some OpType.OP_AND
    ∧ naryTokenOpType TokenType.TT_ANYOF = Option.some OpType.OP_OR
    ∧ OpType.OP_AND ≠ OpType.OP_OR
    ∧ (∀ (e : ExprNode) (t : TypeNode),
        ExprNode.etype (ExprNode.cast (CastExprNode.mk e t)) = ExprType.ET_CAST)
    ∧ ExprType.ET_CAST ≠ ExprType.ET_OP := by
  refine ⟨by decide, rfl, by decide, rfl, rfl, by decide, ?_, by decide⟩
  intro e t
  rfl

/-- Claim C5: every declaration node a successful parse produces has at most
one of its three initializer slots (init expression, init type, inherited
parent) populated, and a declaration supplying two initializers
(`I HAS A x ITZ 42 ITZ A NUMBR`) is rejected at parse time, because the
single optional Initialization must be followed directly by the NEWLINE. -/
theorem C5_declaration_exclusive :
    (∀ (pI : PIdent) (pE : PExpr) (toks : List Token) (st : StmtNode) (rest : List Token),
        declarationStep pI pE toks = Option.some (st, rest) →
        ∃ d, st = StmtNode.declarationStmt d ∧ initCount d ≤ 1)
    ∧ parseDeclarationStmtNode 24 declTwoInitToks = Option.none := by
  refine ⟨?_, rfl⟩
  intro pI pE toks st rest h
  unfold declarationStep at h
  rw [pbind_eq_some] at h
  obtain ⟨scope, r1, h1, h⟩ := h
  rw [tbind_eq_some] at h
  obtain ⟨r2, h2, h⟩ := h
  rw [pbind_eq_some] at h
  obtain ⟨target, r3, h3, h⟩ := h
  rw [pbind_eq_some] at h
  obtain ⟨ini, r4, h4, h⟩ := h
  rw [tbind_eq_some] at h
  obtain ⟨r5, h5, h⟩ := h
  cases h
  refine ⟨_, rfl, ?_⟩
  have := declInitTail_count pI pE r3 ini r4 h4
  simpa [initCount] using this

/-- Witness for C5_declaration_exclusive at the concrete input
`I HAS A x ITZ 42`. -/
theorem C5_declaration_exclusive_witness :
    ∃ d, StmtNode.declarationStmt (DeclarationStmtNode.mk (dirIdent "I") (dirIdent "x")
        (Option.some (ExprNode.constant (createIntegerConstantNode 42))) Option.none Option.none) =
      StmtNode.declarationStmt d ∧ initCount d ≤ 1 :=
  C5_declaration_exclusive.1 (parseIdentifierNode 24) (parseExprNode 24) declOneInitToks
    (StmtNode.declarationStmt (DeclarationStmtNode.mk (dirIdent "I") (dirIdent "x")
      (Option.some (ExprNode.constant (createIntegerConstantNode 42))) Option.none Option.none))
    [kw TokenType.TT_EOF] rfl

/-- Claim C6: the closing section of a loop parses only when the identifier
after IM OUTTA YR string-equals the opening name (so in every successfully
parsed program the check held for every loop node); a mismatch such as spec
scenario 5 (`IM IN YR A ... IM OUTTA YR B`) makes the whole statement parse
fail, while the same loop closed with the matching name parses. -/
theorem C6_loop_name_match :
    (∀ (pI : PIdent) (name : IdentifierNode) (toks rest : List Token),
        loopCloseStep pI name toks = Option.some rest →
        ∃ r1 closing r2, acceptToken toks TokenType.TT_IMOUTTAYR = Option.some r1 ∧
          pI r1 = Option.some (closing, r2) ∧ loopNameEq name closing = true)
    ∧ (∀ a b : IdentifierNode, loopNameEq a b = true →
        directNameOf a = directNameOf b ∧ (directNameOf a).isSome = true)
    ∧ parseStmtNode 24 loopMismatchToks = Option.none
    ∧ (parseStmtNode 24 loopMatchToks).isSome = true := by
  refine ⟨?_, ?_, rfl, rfl⟩
  · intro pI name toks rest h
    unfold loopCloseStep at h
    rw [tbind_eq_some] at h
    obtain ⟨r1, h1, h⟩ := h
    rw [pbind_eq_some] at h
    obtain ⟨closing, r2, h2, h⟩ := h
    split at h
    next hcond => exact ⟨r1, closing, r2, h1, h2, hcond⟩
    next hcond => cases h
  · intro a b h
    unfold loopNameEq at h
    split at h
    next x y hx hy =>
      simp only [decide_eq_true_eq] at h
      subst h
      rw [hx, hy]
      simp
    next => cases h

/-- Witness for C6_loop_name_match at the concrete closing tokens
`IM OUTTA YR A` against the opening name A. -/
theorem C6_loop_name_match_witness :
    ∃ r1 closing r2,
      acceptToken [kw TokenType.TT_IMOUTTAYR, idTok "A", kw TokenType.TT_NEWLINE, kw TokenType.TT_EOF]
          TokenType.TT_IMOUTTAYR = Option.some r1 ∧
      parseIdentifierNode 24 r1 = Option.some (closing, r2) ∧
      loopNameEq (dirIdent "A") closing = true :=
  C6_loop_name_match.1 (parseIdentifierNode 24) (dirIdent "A")
    [kw TokenType.TT_IMOUTTAYR, idTok "A", kw TokenType.TT_NEWLINE, kw TokenType.TT_EOF]
    [kw TokenType.TT_EOF] rfl

/-- Claim C7 (evaluation at the failing input): the deallocation production
of the in-source EBNF, IdentifierNode TT_RNOOB, contains no terminating
TT_NEWLINE, so on the tokens of `x R NOOB` followed by its NEWLINE the
statement parse succeeds while leaving the NEWLINE unconsumed - and a block
containing the deallocation then fails on that leftover NEWLINE, which
contradicts the claimed (and spec-intended) `<ident> R NOOB NEWLINE` shape
that every sibling statement production follows. -/
theorem C7_dealloc_missing_newline :
    parseDeallocationStmtNode 24 deallocToks =
      Option.some (StmtNode.deallocationStmt (DeallocationStmtNode.mk (dirIdent "x")),
        [kw TokenType.TT_NEWLINE, kw TokenType.TT_EOF])
    ∧ parseBlockNode 24 deallocToks = Option.none :=
  ⟨rfl, rfl⟩

/-- Claim C8: the integer constant constructor takes and stores a signed
64-bit value (the C type is long long int, modelled as the range predicate
signed64) and the float constant constructor takes and stores a 32-bit value
(C float, modelled as a 32-bit pattern satisfying bits32); each stores its
argument unchanged, so the constant node's payloads stay within those
widths. -/
theorem C8_constant_widths :
    (∀ v : Int, signed64 v →
        (createIntegerConstantNode v).type = ConstantType.CT_INTEGER ∧
        constantIntPayload (createIntegerConstantNode v) = Option.some v ∧
        (∀ w, constantIntPayload (createIntegerConstantNode v) = Option.some w → signed64 w))
    ∧ (∀ b : Nat, bits32 b →
        (createFloatConstantNode b).type = ConstantType.CT_FLOAT ∧
        constantFloatPayload (createFloatConstantNode b) = Option.some b ∧
        (∀ w, constantFloatPayload (createFloatConstantNode b) = Option.some w → bits32 w)) := by
  constructor
  · intro v hv
    refine ⟨rfl, rfl, ?_⟩
    intro w hw
    simp only [constantIntPayload, createIntegerConstantNode] at hw
    cases hw
    exact hv
  · intro b hb
    refine ⟨rfl, rfl, ?_⟩
    intro w hw
    simp only [constantFloatPayload, createFloatConstantNode] at hw
    cases hw
    exact hb

/-- Witness for C8_constant_widths at the concrete inputs 42 and 7. -/
theorem C8_constant_widths_witness :
    signed64 42 ∧
    ((createIntegerConstantNode 42).type = ConstantType.CT_INTEGER ∧
     constantIntPayload (createIntegerConstantNode 42) = Option.some 42 ∧
     (∀ w, constantIntPayload (createIntegerConstantNode 42) = Option.some w → signed64 w)) ∧
    bits32 7 ∧
    ((createFloatConstantNode 7).type = ConstantType.CT_FLOAT ∧
     constantFloatPayload (createFloatConstantNode 7) = Option.some 7 ∧
     (∀ w, constantFloatPayload (createFloatConstantNode 7) = Option.some w → bits32 w)) :=
  ⟨by norm_num [signed64], C8_constant_widths.1 42 (by norm_num [signed64]),
   by norm_num [bits32], C8_constant_widths.2 7 (by norm_num [bits32])⟩

/-- Claim C9: every if/then/else node and every switch node a successful
parse produces has guard and block lists of the same length - the two lists
grow only in lockstep, one guard and one block per MEBBE branch or OMG
case. -/
theorem C9_parallel_lists :
    (∀ (f : Nat) (pE : PExpr) (pB : PBlock) (toks : List Token) (st : StmtNode) (rest : List Token),
        ifThenElseStep f pE pB toks = Option.some (st, rest) →
        ∃ n, st = StmtNode.ifThenElseStmt n ∧ n.guards.length = n.blocks.length)
    ∧ (∀ (f : Nat) (pE : PExpr) (pB : PBlock) (toks : List Token) (st : StmtNode) (rest : List Token),
        switchStep f pE pB toks = Option.some (st, rest) →
        ∃ n, st = StmtNode.switchStmt n ∧ n.guards.length = n.blocks.length) := by
  constructor
  · intro f pE pB toks st rest h
    unfold ifThenElseStep at h
    rw [tbind_eq_some] at h; obtain ⟨r1, _, h⟩ := h
    rw [tbind_eq_some] at h; obtain ⟨r2, _, h⟩ := h
    rw [tbind_eq_some] at h; obtain ⟨r3, _, h⟩ := h
    rw [tbind_eq_some] at h; obtain ⟨r4, _, h⟩ := h
    rw [pbind_eq_some] at h; obtain ⟨yes, r5, _, h⟩ := h
    rw [pbind_eq_some] at h; obtain ⟨gb, r6, hgb, h⟩ := h
    rw [pbind_eq_some] at h; obtain ⟨noOpt, r7, _, h⟩ := h
    rw [tbind_eq_some] at h; obtain ⟨r8, _, h⟩ := h
    rw [tbind_eq_some] at h; obtain ⟨r9, _, h⟩ := h
    cases h
    refine ⟨_, rfl, ?_⟩
    simpa [IfThenElseStmtNode.guards, IfThenElseStmtNode.blocks]
      using elseIfsLoop_length pE pB f r5 gb r6 hgb
  · intro f pE pB toks st rest h
    unfold switchStep at h
    rw [tbind_eq_some] at h; obtain ⟨r1, _, h⟩ := h
    rw [tbind_eq_some] at h; obtain ⟨r2, _, h⟩ := h
    rw [tbind_eq_some] at h; obtain ⟨r3, _, h⟩ := h
    rw [pbind_eq_some] at h; obtain ⟨g1, r4, _, h⟩ := h
    rw [tbind_eq_some] at h; obtain ⟨r5, _, h⟩ := h
    rw [pbind_eq_some] at h; obtain ⟨b1, r6, _, h⟩ := h
    rw [pbind_eq_some] at h; obtain ⟨gb, r7, hgb, h⟩ := h
    rw [pbind_eq_some] at h; obtain ⟨defOpt, r8, _, h⟩ := h
    rw [tbind_eq_some] at h; obtain ⟨r9, _, h⟩ := h
    rw [tbind_eq_some] at h; obtain ⟨r10, _, h⟩ := h
    cases h
    refine ⟨_, rfl, ?_⟩
    simpa [SwitchStmtNode.guards, SwitchStmtNode.blocks]
      using switchCasesLoop_length pE pB f r6 gb r7 hgb

/-- Witness for C9_parallel_lists at a concrete if/then/else with one MEBBE
branch and a concrete switch with two cases. -/
theorem C9_parallel_lists_witness :
    (∃ n, StmtNode.ifThenElseStmt (IfThenElseStmtNode.mk (BlockNode.mk [StmtNode.breakStmt]) Option.none
        [winExprNode] [BlockNode.mk [StmtNode.breakStmt]]) = StmtNode.ifThenElseStmt n ∧
      n.guards.length = n.blocks.length)
    ∧ (∃ n, StmtNode.switchStmt (SwitchStmtNode.mk
        [ExprNode.constant (createIntegerConstantNode 1), ExprNode.constant (createIntegerConstantNode 2)]
        [BlockNode.mk [StmtNode.breakStmt], BlockNode.mk [StmtNode.breakStmt]] Option.none) =
        StmtNode.switchStmt n ∧ n.guards.length = n.blocks.length) :=
  ⟨C9_parallel_lists.1 24 (parseExprNode 24) (parseBlockNode 24) ifElseIfToks _ [kw TokenType.TT_EOF] rfl,
   C9_parallel_lists.2 24 (parseExprNode 24) (parseBlockNode 24) switchTwoCaseToks _ [kw TokenType.TT_EOF] rfl⟩

/-- The constant kinds producible through the declared constant-construction
interface of parser.h. -/
def publicConstantKinds : List ConstantType :=
  [ConstantType.CT_BOOLEAN, ConstantType.CT_INTEGER, ConstantType.CT_FLOAT, ConstantType.CT_STRING]

/-- Claim C10: every constant node built by the four declared constructors
has kind boolean, integer, float or string; neither CT_NIL nor CT_ARRAY is
producible through that interface, although both are (distinct) variants of
the ConstantType discriminant. -/
theorem C10_constructor_kinds :
    (∀ v : Int, (createBooleanConstantNode v).type ∈ publicConstantKinds)
    ∧ (∀ v : Int, (createIntegerConstantNode v).type ∈ publicConstantKinds)
    ∧ (∀ b : Nat, (createFloatConstantNode b).type ∈ publicConstantKinds)
    ∧ (∀ s : String, (createStringConstantNode s).type ∈ publicConstantKinds)
    ∧ ConstantType.CT_NIL ∉ publicConstantKinds
    ∧ ConstantType.CT_ARRAY ∉ publicConstantKinds
    ∧ ConstantType.CT_NIL ≠ ConstantType.CT_ARRAY := by
  refine ⟨?_, ?_, ?_, ?_, by decide, by decide, by decide⟩
  · intro v; simp [createBooleanConstantNode, publicConstantKinds]
  · intro v; simp [createIntegerConstantNode, publicConstantKinds]
  · intro b; simp [createFloatConstantNode, publicConstantKinds]
  · intro s; simp [createStringConstantNode, publicConstantKinds]
